import Mathlib

/-
  Verification of the image-publishing subsystem of the dashboard
  (src/dashboard.js): credential resolution, token lifecycle, the
  three-step asynchronous publish protocol, and the JSON gallery store.

  The JavaScript is embedded shallowly: every `fetch` response is a value
  supplied by a `Network` record (the environment), JavaScript truthiness
  of string-or-undefined values is `truthyS`, timestamps are integers in
  milliseconds, and the floating-point day arithmetic in `loadTokens` is modelled
  with exact integer arithmetic (division by the positive constant
  86400000 preserves the strict comparisons used by the code).
-/

namespace Dashboard

/-- Truthiness of a JavaScript string-or-undefined value:
present and non-empty. -/
def truthyS : Option String → Bool
  | some s => !(s == "")
  | none => false

/-- The persisted credential record (file `.instagram-tokens.json`),
mirrored in memory as `instagramTokens` (src/dashboard.js:78). -/
structure Tokens where
  accessToken : Option String
  userId : Option String
  username : Option String
  pageId : Option String
  pageName : Option String
  expiresAt : Option Int
  deriving Repr, DecidableEq

/-- The credential triple returned by `getInstagramCreds`. -/
structure Creds where
  accessToken : Option String
  userId : Option String
  username : Option String
  deriving Repr, DecidableEq

/-- Fixed fallback display name used with environment credentials
(src/dashboard.js:156). -/
def envUsername : String := "silkpath.co"

/-- Embedding of `getInstagramCreds` (src/dashboard.js:144-158): returns
the stored tokens when they carry a (truthy) access token, otherwise the
environment-supplied token and user id with the fixed username. -/
def getInstagramCreds (instagramTokens : Option Tokens)
    (envToken envUserId : Option String) : Creds :=
  match instagramTokens with
  | some t =>
    if truthyS t.accessToken then
      { accessToken := t.accessToken, userId := t.userId, username := t.username }
    else
      { accessToken := envToken, userId := envUserId, username := some envUsername }
  | none => { accessToken := envToken, userId := envUserId, username := some envUsername }

/-- Seven days in milliseconds: the auto-refresh window of `loadTokens`
(src/dashboard.js:89, `daysUntilExpiry < 7 && daysUntilExpiry > 0`). -/
def refreshWindowMs : Int := 7 * 24 * 60 * 60 * 1000

/-- Sixty days in milliseconds: the validity stamped on a refreshed or
newly exchanged long-lived token (src/dashboard.js:127,204,358). -/
def longLivedMs : Int := 60 * 24 * 60 * 60 * 1000

/-- Embedding of the refresh-triggering logic of `loadTokens`
(src/dashboard.js:79-101): the number of calls made to
`autoRefreshToken`, given the parsed token file (none when the file is
absent or unparsable) and the current time in ms.  The code refreshes
exactly once when the record has a truthy `expiresAt` and `accessToken`
and `0 < expiresAt - now < refreshWindowMs`, and never otherwise. -/
def loadTokensRefreshCount (fileTokens : Option Tokens) (now : Int) : Nat :=
  match fileTokens with
  | none => 0
  | some t =>
    match t.expiresAt with
    | some exp =>
      if truthyS t.accessToken then
        if exp - now < refreshWindowMs ∧ 0 < exp - now then 1 else 0
      else 0
    | none => 0

/-- Possible results of the single token-refresh `fetch` in
`autoRefreshToken`: a 200 response carrying an `error` payload, a thrown
HTTP/parse error, or a successful response with a new access token. -/
inductive RefreshResp where
  | errorPayload (msg : String)
  | throwErr (msg : String)
  | ok (newToken : String)
  deriving Repr, DecidableEq

/-- Result of `autoRefreshToken`: the in-memory record afterwards, what
(if anything) was persisted to the token file, and whether the refresh
HTTP call was issued. -/
structure RefreshOutcome where
  tokens : Option Tokens
  fileWritten : Option Tokens
  networkCalled : Bool
  deriving Repr, DecidableEq

/-- Embedding of `autoRefreshToken` (src/dashboard.js:104-134).  The
guard returns early (no network) when the access token or either app
credential is missing; an error payload or a thrown error leaves both
the in-memory record and the file untouched; success overwrites the
access token and expiry and persists via `saveTokens`. -/
def autoRefreshToken (st : Option Tokens) (fbAppId fbAppSecret : Option String)
    (resp : RefreshResp) (now : Int) : RefreshOutcome :=
  match st with
  | none => ⟨none, none, false⟩
  | some t =>
    if truthyS t.accessToken && truthyS fbAppId && truthyS fbAppSecret then
      match resp with
      | .errorPayload _ => ⟨some t, none, true⟩
      | .throwErr _ => ⟨some t, none, true⟩
      | .ok newTok =>
        let t2 := { t with accessToken := some newTok,
                           expiresAt := some (now + longLivedMs) }
        ⟨some t2, some t2, true⟩
    else ⟨some t, none, false⟩

/-- One page as seen by the OAuth callback's page loop
(src/dashboard.js:321-345): the page's own fields from `/me/accounts`,
the id of its linked Instagram business account when present, and the
username returned by the follow-up lookup on that account. -/
structure PageInfo where
  id : String
  name : String
  access_token : String
  igBusinessAccount : Option String
  igUsername : Option String
  deriving Repr, DecidableEq

/-- The credential record the OAuth callback persists for a matched page
(src/dashboard.js:352-359): the page access token, the linked account id
and username, the page id/name, and a fresh ~60-day expiry. -/
def pageTokens (now : Int) (p : PageInfo) : Tokens :=
  { accessToken := some p.access_token
    userId := some (p.igBusinessAccount.getD "")
    username := p.igUsername
    pageId := some p.id
    pageName := some p.name
    expiresAt := some (now + longLivedMs) }

/-- Embedding of the callback's page-selection loop and save
(src/dashboard.js:321-359): walk the pages in listing order, stop at the
first one with a linked Instagram business account and persist its
credential record; `none` models the terminal "No Instagram
Business/Creator account found" error. -/
def callbackSavedTokens (now : Int) : List PageInfo → Option Tokens
  | [] => none
  | p :: rest =>
    match p.igBusinessAccount with
    | some igId =>
      some { accessToken := some p.access_token
             userId := some igId
             username := p.igUsername
             pageId := some p.id
             pageName := some p.name
             expiresAt := some (now + longLivedMs) }
    | none => callbackSavedTokens now rest

/-- Response to the pre-flight HEAD fetch of the image URL
(src/dashboard.js:424-426). -/
structure HeadResponse where
  ok : Bool
  status : Nat
  statusText : String
  contentType : Option String
  deriving Repr, DecidableEq

/-- Parsed JSON of the container-create or media-publish POST: an
optional `error.message` and an optional `id`. -/
structure ApiResponse where
  err : Option String
  id : Option String
  deriving Repr, DecidableEq

/-- Parsed JSON of one container-status GET
(src/dashboard.js:470-472): optional `status_code` and `status` fields. -/
structure StatusResponse where
  status_code : Option String
  status : Option String
  deriving Repr, DecidableEq

/-- The environment of one `postToInstagram` run: the responses the
network would return to each of its fetches.  `statusResps i` is the
response to the (i+1)-th status poll. -/
structure Network where
  head : HeadResponse
  create : ApiResponse
  statusResps : Nat → StatusResponse
  publish : ApiResponse

/-- How the poll body turns one status response into the loop's status
variable (src/dashboard.js:476-483): a truthy `status_code` wins, else a
truthy `status`, else the absence of both means "FINISHED". -/
def interpStatus (r : StatusResponse) : String :=
  if truthyS r.status_code then r.status_code.getD ""
  else if truthyS r.status then r.status.getD ""
  else "FINISHED"

/-- The poll's attempt budget (src/dashboard.js:465, `maxAttempts = 30`). -/
def maxAttempts : Nat := 30

/-- Fuel-indexed embedding of the readiness-poll while loop
(src/dashboard.js:463-486): `while status == IN_PROGRESS && attempts <
maxAttempts`, each iteration fetching `responses attempts` and
incrementing `attempts`.  Along every run started by `pollStatus`,
`fuel + attempts = maxAttempts`, so the fuel never runs out before the
loop guard fails; returns the final status and the attempt count. -/
def pollLoop (responses : Nat → StatusResponse) :
    Nat → String → Nat → String × Nat
  | 0, status, attempts => (status, attempts)
  | fuel + 1, status, attempts =>
    if status = "IN_PROGRESS" ∧ attempts < maxAttempts then
      pollLoop responses fuel (interpStatus (responses attempts)) (attempts + 1)
    else (status, attempts)

/-- The readiness poll as run by `postToInstagram`: start with status
"IN_PROGRESS" and zero attempts. -/
def pollStatus (responses : Nat → StatusResponse) : String × Nat :=
  pollLoop responses maxAttempts "IN_PROGRESS" 0

/-- Embedding of the content-type check `contentType.startsWith('image/')`
(src/dashboard.js:433), phrased over the character list so it computes
by structural recursion. -/
def startsWithImage (ct : String) : Bool :=
  "image/".data.isPrefixOf ct.data

/-- Precondition-failure message of `postToInstagram`
(src/dashboard.js:417). -/
def notConnectedMsg : String :=
  "Instagram not connected. Click \"Connect Instagram\" to authenticate."

/-- Terminal failure message when the container status is "ERROR"
(src/dashboard.js:489). -/
def processingErrorMsg : String := "Instagram failed to process the image"

/-- Terminal failure message when the poll budget is exhausted while
still "IN_PROGRESS" (src/dashboard.js:493). -/
def timeoutMsg : String := "Instagram is taking too long to process the image"

/-- Decidable equality for `Except`, needed to evaluate publish
outcomes on concrete inputs. -/
instance {ε α : Type} [DecidableEq ε] [DecidableEq α] : DecidableEq (Except ε α) :=
  fun x y =>
    match x, y with
    | .ok a, .ok b =>
      if h : a = b then .isTrue (by rw [h]) else .isFalse (fun hc => h (Except.ok.inj hc))
    | .error a, .error b =>
      if h : a = b then .isTrue (by rw [h]) else .isFalse (fun hc => h (Except.error.inj hc))
    | .ok _, .error _ => .isFalse (fun hc => Except.noConfusion hc)
    | .error _, .ok _ => .isFalse (fun hc => Except.noConfusion hc)

/-- Result of one `postToInstagram` run: the returned value or thrown
message, plus which network steps were reached (the HEAD check, the
container create, the number of status polls, the final publish POST). -/
structure PublishOutcome where
  result : Except String (Option String)
  headCalled : Bool
  createCalled : Bool
  statusCalls : Nat
  publishCalled : Bool
  deriving Repr, DecidableEq

/-- Embedding of `postToInstagram` (src/dashboard.js:413-515): resolve
credentials, fail fast when the access token or user id is missing
(before any network call), HEAD-check the image URL (wrapping failures
with the `Image URL validation failed` prefix), create the media
container, poll its status, and publish.  The creation id returned by
the create step only feeds the status URL, so it is not tracked. -/
def postToInstagram (tokens : Option Tokens) (envToken envUserId : Option String)
    (net : Network) (imageUrl caption : String) : PublishOutcome :=
  let creds := getInstagramCreds tokens envToken envUserId
  if !(truthyS creds.accessToken && truthyS creds.userId) then
    ⟨.error notConnectedMsg, false, false, 0, false⟩
  else
    let hr := net.head
    let contentType := hr.contentType.getD ""
    let statusLine := toString hr.status ++ " " ++ hr.statusText
    if !hr.ok then
      let hint := if hr.status = 404 then "Check PUBLIC_URL, ngrok tunnel, and filename."
        else "Check that the URL is publicly reachable."
      ⟨.error ("Image URL validation failed: " ++ "Image URL not accessible (HTTP "
          ++ statusLine.trim ++ "). " ++ hint ++ " URL: " ++ imageUrl),
        true, false, 0, false⟩
    else if !(startsWithImage contentType) then
      ⟨.error ("Image URL validation failed: "
          ++ "Image URL did not return an image content-type. Got \"" ++ contentType
          ++ "\". URL: " ++ imageUrl),
        true, false, 0, false⟩
    else
      match net.create.err with
      | some msg => ⟨.error msg, true, true, 0, false⟩
      | none =>
        let sr := pollStatus net.statusResps
        if sr.1 = "ERROR" then ⟨.error processingErrorMsg, true, true, sr.2, false⟩
        else if sr.1 = "IN_PROGRESS" then ⟨.error timeoutMsg, true, true, sr.2, false⟩
        else
          match net.publish.err with
          | some msg => ⟨.error msg, true, true, sr.2, true⟩
          | none => ⟨.ok net.publish.id, true, true, sr.2, true⟩

/-- One record of the gallery document (src/index.js appends these;
src/dashboard.js mutates them in place). -/
structure GalleryImage where
  id : Int
  filename : String
  hijabStyle : String
  caption : String
  createdAt : String
  provider : String
  favorited : Bool
  postedToInstagram : Bool
  postedAt : Option String
  deriving Repr, DecidableEq

/-- The gallery document `gallery.json`: a single object with an
`images` array. -/
structure GalleryData where
  images : List GalleryImage
  deriving Repr, DecidableEq

/-- JavaScript's `array.find(p)` followed by an in-place mutation of the
found element: rewrite the first element satisfying `p`, keep the rest. -/
def updateFirst {α : Type} (p : α → Bool) (f : α → α) : List α → List α
  | [] => []
  | a :: rest => if p a then f a :: rest else a :: updateFirst p f rest

/-- Outcome of an express route handler, by response class: 200 JSON
success, 400 bad request, 404 not found, 500 server error. -/
inductive RouteResult (α : Type) where
  | ok (val : α)
  | badRequest (msg : String)
  | notFound
  | serverError (msg : String)
  deriving Repr, DecidableEq

/-- Embedding of the favorite-toggle route `POST /api/favorite/:id`
(src/dashboard.js:1963-1981): a failed gallery read is a 500, a missing
id a 404 with no write, otherwise the first matching record's
`favorited` flag is flipped, the whole document rewritten, and the new
flag value returned.  The second component is the document written back,
when any. -/
def toggleFavoriteRoute (read : Except String GalleryData) (imageId : Int) :
    RouteResult Bool × Option GalleryData :=
  match read with
  | .error e => (.serverError e, none)
  | .ok g =>
    match g.images.find? (fun i => i.id == imageId) with
    | some img =>
      let g2 : GalleryData :=
        { images := updateFirst (fun i => i.id == imageId)
            (fun i => { i with favorited := !i.favorited }) g.images }
      (.ok (!img.favorited), some g2)
    | none => (.notFound, none)

/-- Embedding of the caption-edit route `PUT /api/caption/:id`
(src/dashboard.js:1936-1960): an absent or empty caption is a 400 before
any file access; then as for favorite-toggle, with the caption field
replaced. -/
def setCaptionRoute (read : Except String GalleryData) (imageId : Int)
    (caption : Option String) : RouteResult String × Option GalleryData :=
  if !(truthyS caption) then (.badRequest "Caption is required", none)
  else
    let c := caption.getD ""
    match read with
    | .error e => (.serverError e, none)
    | .ok g =>
      match g.images.find? (fun i => i.id == imageId) with
      | some _ =>
        let g2 : GalleryData :=
          { images := updateFirst (fun i => i.id == imageId)
              (fun i => { i with caption := c }) g.images }
        (.ok c, some g2)
      | none => (.notFound, none)

/-- Embedding of the delete route `DELETE /api/image/:id`
(src/dashboard.js:1984-2012): 500 on read failure, 404 when no record
matches, otherwise the backing file is removed only if it exists
(absence tolerated), the record is spliced out and the document
rewritten.  Third component: whether the file removal was performed. -/
def deleteRoute (read : Except String GalleryData) (imageId : Int)
    (fileExists : Bool) : RouteResult Unit × Option GalleryData × Bool :=
  match read with
  | .error e => (.serverError e, none, false)
  | .ok g =>
    match g.images.findIdx? (fun i => i.id == imageId) with
    | none => (.notFound, none, false)
    | some idx =>
      (.ok (), some { images := g.images.eraseIdx idx }, fileExists)

/-- Embedding of `markAsPosted` (src/dashboard.js:520-533): set the
posted flag and timestamp on the first matching record and rewrite the
document; when no record matches, silently return the document unchanged
and write nothing.  Second component: whether the file was rewritten. -/
def markAsPosted (g : GalleryData) (imageId : Int) (nowIso : String) :
    GalleryData × Bool :=
  match g.images.find? (fun i => i.id == imageId) with
  | some _ =>
    ({ images := updateFirst (fun i => i.id == imageId)
        (fun i => { i with postedToInstagram := true, postedAt := some nowIso })
        g.images }, true)
  | none => (g, false)

/-- Embedding of the publish route `POST /api/post-to-instagram`
(src/dashboard.js:536-567): 400 without PUBLIC_URL or credentials, 500
when `postToInstagram` throws, otherwise `markAsPosted` runs and the
route reports success with the published media id.  Returns the route
outcome, the gallery document afterwards, and whether it was rewritten. -/
def postToInstagramRoute (publicUrl : Option String) (tokens : Option Tokens)
    (envToken envUserId : Option String) (net : Network) (g : GalleryData)
    (imageId : Int) (filename caption nowIso : String) :
    RouteResult (Option String) × GalleryData × Bool :=
  if !(truthyS publicUrl) then
    (.badRequest "PUBLIC_URL not configured. Instagram requires images to be publicly accessible. Set PUBLIC_URL in .env (e.g., use ngrok)", g, false)
  else
    let creds := getInstagramCreds tokens envToken envUserId
    if !(truthyS creds.accessToken && truthyS creds.userId) then
      (.badRequest notConnectedMsg, g, false)
    else
      let imageUrl := publicUrl.getD "" ++ "/images/" ++ filename
      let out := postToInstagram tokens envToken envUserId net imageUrl caption
      match out.result with
      | .error e => (.serverError e, g, false)
      | .ok mid =>
        let gw := markAsPosted g imageId nowIso
        (.ok mid, gw.1, gw.2)

/-- Embedding of `parseInt(count, 10) || 1` (src/dashboard.js:1859):
`none` models a missing or non-numeric count (parseInt yields NaN, which
is falsy); a parsed 0 is falsy too, so both fall back to 1. -/
def parseCountOr1 (count : Option Int) : Int :=
  match count with
  | none => 1
  | some v => if v = 0 then 1 else v

/-- The run count of the generate endpoint (src/dashboard.js:1859):
`Math.min(Math.max(parseInt(count, 10) || 1, 1), 10)`. -/
def runCount (count : Option Int) : Int :=
  min (max (parseCountOr1 count) 1) 10

/-- Embedding of `POST /api/generate` (src/dashboard.js:1845-1907),
restricted to its validation and run-count behaviour: a request with
neither a (truthy) color nor a hijab folder is rejected with 400 before
any generator run; otherwise the generator subprocess is invoked exactly
`runCount count` times (assuming each invocation succeeds).  Second
component: the number of Generation Driver runs executed. -/
def generateRoute (color hijabFolder : Option String) (count : Option Int) :
    RouteResult Int × Nat :=
  if !(truthyS color) && !(truthyS hijabFolder) then
    (.badRequest "Select a hijab, choose Random, or provide a color", 0)
  else
    (.ok (runCount count), (runCount count).toNat)

/-- A network whose every response is a success: reachable image HEAD,
container created, first status poll already finished, publish returns
media id "mid1".  Used to instantiate universally quantified claims. -/
def demoNetOk : Network :=
  { head := ⟨true, 200, "OK", some "image/jpeg"⟩
    create := ⟨none, some "cid1"⟩
    statusResps := fun _ => ⟨some "FINISHED", none⟩
    publish := ⟨none, some "mid1"⟩ }

/-- A network whose status polls all report IN_PROGRESS. -/
def inProgressNet : Network :=
  { demoNetOk with statusResps := fun _ => ⟨some "IN_PROGRESS", none⟩ }

/-- A network whose first status poll reports ERROR. -/
def errorNet : Network :=
  { demoNetOk with statusResps := fun _ => ⟨some "ERROR", none⟩ }

/-- A network whose first status poll has neither status field. -/
def noFieldNet : Network :=
  { demoNetOk with statusResps := fun _ => ⟨none, none⟩ }

/-- A stored credential record whose expiry instant 0 (the epoch) lies
in the past, but which still carries an access token and user id. -/
def expiredTokens : Tokens :=
  { accessToken := some "oldtok", userId := some "uid1", username := some "user1"
    pageId := none, pageName := none, expiresAt := some 0 }

/-- A stored credential record expiring 1500 ms after the epoch. -/
def freshTokens : Tokens :=
  { accessToken := some "tok", userId := some "uid", username := some "user"
    pageId := none, pageName := none, expiresAt := some 1500 }

/-- A listed page with no linked Instagram business account. -/
def unlinkedPage : PageInfo :=
  { id := "pg1", name := "Page One", access_token := "tok1"
    igBusinessAccount := none, igUsername := none }

/-- A listed page with a linked Instagram business account "ig2". -/
def linkedPage : PageInfo :=
  { id := "pg2", name := "Page Two", access_token := "tok2"
    igBusinessAccount := some "ig2", igUsername := some "user2" }

/-- A gallery record with id 1, not yet favorited or posted. -/
def sampleImage : GalleryImage :=
  { id := 1, filename := "a.png", hijabStyle := "classic", caption := "cap"
    createdAt := "2024-01-01", provider := "gemini", favorited := false
    postedToInstagram := false, postedAt := none }

/-- A gallery document holding only `sampleImage`. -/
def sampleGallery : GalleryData := { images := [sampleImage] }

/- ------------------------------------------------------------------
   Helper lemmas about the readiness poll and list surgery.
------------------------------------------------------------------ -/

/-- If `f` preserves satisfaction of `p`, rewriting the first match
keeps it the first match. -/
theorem find?_updateFirst {α : Type} (p : α → Bool) (f : α → α)
    (hpf : ∀ a, p a = true → p (f a) = true) :
    ∀ (l : List α) (x : α), l.find? p = some x →
      (updateFirst p f l).find? p = some (f x) := by
  intro l
  induction l with
  | nil => intro x h; simp at h
  | cons a rest ih =>
    intro x h
    cases hp : p a with
    | true =>
      rw [List.find?_cons_of_pos _ hp] at h
      injection h with h
      subst h
      simp [updateFirst, hp, List.find?_cons_of_pos _ (hpf a hp)]
    | false =>
      rw [List.find?_cons_of_neg _ (by simp [hp])] at h
      simp only [updateFirst, hp, Bool.false_eq_true, if_false]
      rw [List.find?_cons_of_neg _ (by simp [hp])]
      exact ih x h

/-- Rewriting the first match twice with an involutive-on-matches `f`
that preserves matching restores the original list. -/
theorem updateFirst_updateFirst {α : Type} (p : α → Bool) (f : α → α)
    (hpf : ∀ a, p a = true → p (f a) = true)
    (hff : ∀ a, p a = true → f (f a) = a) :
    ∀ l : List α, updateFirst p f (updateFirst p f l) = l := by
  intro l
  induction l with
  | nil => rfl
  | cons a rest ih =>
    cases hp : p a with
    | true => simp [updateFirst, hp, hpf a hp, hff a hp]
    | false => simp [updateFirst, hp, ih]

/-- Once the status variable is anything but IN_PROGRESS, the poll loop
returns immediately with the current attempt count. -/
theorem pollLoop_exit (responses : Nat → StatusResponse) (fuel attempts : Nat)
    (s : String) (hs : s ≠ "IN_PROGRESS") :
    pollLoop responses fuel s attempts = (s, attempts) := by
  cases fuel with
  | zero => rfl
  | succ fuel => simp [pollLoop, hs]

/-- While every response interprets to IN_PROGRESS, the loop runs until
the attempt budget is exhausted. -/
theorem pollLoop_all_progress (responses : Nat → StatusResponse)
    (h : ∀ i, interpStatus (responses i) = "IN_PROGRESS") :
    ∀ fuel attempts, fuel + attempts = maxAttempts →
      pollLoop responses fuel "IN_PROGRESS" attempts = ("IN_PROGRESS", maxAttempts) := by
  intro fuel
  induction fuel with
  | zero => intro attempts hfa; simp at hfa; simp [pollLoop, hfa]
  | succ fuel ih =>
    intro attempts hfa
    have hlt : attempts < maxAttempts := by omega
    simp only [pollLoop, hlt, and_true, if_pos rfl, true_and, if_true]
    rw [h attempts]
    exact ih (attempts + 1) (by omega)

/-- If the first k responses interpret to IN_PROGRESS and the (k+1)-th
to something else, the loop stops after exactly k+1 attempts with that
status. -/
theorem pollLoop_stop_at (responses : Nat → StatusResponse) (k : Nat)
    (hk : k < maxAttempts)
    (hbefore : ∀ i, i < k → interpStatus (responses i) = "IN_PROGRESS")
    (hstop : interpStatus (responses k) ≠ "IN_PROGRESS") :
    ∀ fuel attempts, fuel + attempts = maxAttempts → attempts ≤ k →
      pollLoop responses fuel "IN_PROGRESS" attempts = (interpStatus (responses k), k + 1) := by
  intro fuel
  induction fuel with
  | zero => intro attempts hfa hak; omega
  | succ fuel ih =>
    intro attempts hfa hak
    have hlt : attempts < maxAttempts := by omega
    simp only [pollLoop, hlt, and_true, if_pos rfl, true_and, if_true]
    rcases Nat.lt_or_ge attempts k with hcase | hcase
    · rw [hbefore attempts hcase]
      exact ih (attempts + 1) (by omega) (by omega)
    · have hek : attempts = k := by omega
      subst hek
      exact pollLoop_exit responses fuel (attempts + 1) _ hstop

/-- The full poll under all-IN_PROGRESS responses: status never leaves
IN_PROGRESS and exactly `maxAttempts` polls are issued. -/
theorem pollStatus_all_progress (responses : Nat → StatusResponse)
    (h : ∀ i, interpStatus (responses i) = "IN_PROGRESS") :
    pollStatus responses = ("IN_PROGRESS", maxAttempts) :=
  pollLoop_all_progress responses h maxAttempts 0 rfl

/-- The full poll when response k is the first non-IN_PROGRESS one:
terminates with its status after k+1 polls. -/
theorem pollStatus_stop_at (responses : Nat → StatusResponse) (k : Nat)
    (hk : k < maxAttempts)
    (hbefore : ∀ i, i < k → interpStatus (responses i) = "IN_PROGRESS")
    (hstop : interpStatus (responses k) ≠ "IN_PROGRESS") :
    pollStatus responses = (interpStatus (responses k), k + 1) :=
  pollLoop_stop_at responses k hk hbefore hstop maxAttempts 0 rfl (Nat.zero_le k)

/- ------------------------------------------------------------------
   Claim theorems.
------------------------------------------------------------------ -/

/-- C1 (counterexample): a stored credential whose expiry instant (the
epoch, `expiresAt = 0`) lies in the past but which still carries an
access token and user id does NOT make `postToInstagram` fail as a
precondition: the HEAD network request is issued and the publish even
succeeds, because the code never consults the expiry timestamp. -/
theorem c1_counterexample :
    (postToInstagram (some expiredTokens) none none demoNetOk
        "http://x/img.jpg" "cap").headCalled = true ∧
    (postToInstagram (some expiredTokens) none none demoNetOk
        "http://x/img.jpg" "cap").result = .ok (some "mid1") := by
  constructor <;> rfl

/-- C1 (amended): `postToInstagram` fails immediately with the
not-connected message and zero network activity exactly when the
resolved credential lacks a (truthy) access token or user id; whenever
both are present — regardless of any stored expiry — the pre-flight
HEAD request is issued. -/
theorem c1_amended (tokens : Option Tokens) (envToken envUserId : Option String)
    (net : Network) (imageUrl caption : String) :
    (¬(truthyS (getInstagramCreds tokens envToken envUserId).accessToken = true
        ∧ truthyS (getInstagramCreds tokens envToken envUserId).userId = true) →
      postToInstagram tokens envToken envUserId net imageUrl caption =
        ⟨.error notConnectedMsg, false, false, 0, false⟩) ∧
    (truthyS (getInstagramCreds tokens envToken envUserId).accessToken = true →
      truthyS (getInstagramCreds tokens envToken envUserId).userId = true →
      (postToInstagram tokens envToken envUserId net imageUrl caption).headCalled = true) := by
  constructor
  · intro h
    cases hacc : truthyS (getInstagramCreds tokens envToken envUserId).accessToken with
    | true =>
      cases huid : truthyS (getInstagramCreds tokens envToken envUserId).userId with
      | true => exact absurd ⟨hacc, huid⟩ h
      | false => simp [postToInstagram, hacc, huid]
    | false => simp [postToInstagram, hacc]
  · intro hacc huid
    simp only [postToInstagram, hacc, huid]
    simp only [Bool.and_self, Bool.not_true, Bool.false_eq_true, if_false]
    split
    · rfl
    · split
      · rfl
      · split
        · rfl
        · split
          · rfl
          · split
            · rfl
            · split <;> rfl

/-- C1 (witness): with no stored tokens and no environment credentials,
publish fails with the not-connected message and no network step runs. -/
theorem c1_witness :
    postToInstagram none none none demoNetOk "http://x/img.jpg" "cap" =
      ⟨.error notConnectedMsg, false, false, 0, false⟩ :=
  (c1_amended none none none demoNetOk "http://x/img.jpg" "cap").1 (by decide)

/-- C2: when the credential resolves, the HEAD check and container
creation succeed, and every status poll reports IN_PROGRESS, the poll
issues exactly `maxAttempts = 30` status checks and publish fails with
the timeout message; when instead the first non-IN_PROGRESS poll (the
(k+1)-th) reports ERROR, publish fails with the processing-error
message; the two messages differ and in both cases the final publish
POST is never issued. -/
theorem c2_poll_timeout_vs_error (tokens : Option Tokens)
    (envToken envUserId : Option String) (net netE : Network)
    (imageUrl caption : String) (k : Nat)
    (hacc : truthyS (getInstagramCreds tokens envToken envUserId).accessToken = true)
    (huid : truthyS (getInstagramCreds tokens envToken envUserId).userId = true)
    (hok : net.head.ok = true)
    (hct : startsWithImage (net.head.contentType.getD "") = true)
    (hcr : net.create.err = none)
    (hprog : ∀ i, interpStatus (net.statusResps i) = "IN_PROGRESS")
    (hokE : netE.head.ok = true)
    (hctE : startsWithImage (netE.head.contentType.getD "") = true)
    (hcrE : netE.create.err = none)
    (hkE : k < maxAttempts)
    (hbef : ∀ i, i < k → interpStatus (netE.statusResps i) = "IN_PROGRESS")
    (herr : interpStatus (netE.statusResps k) = "ERROR") :
    postToInstagram tokens envToken envUserId net imageUrl caption =
      ⟨.error timeoutMsg, true, true, maxAttempts, false⟩ ∧
    postToInstagram tokens envToken envUserId netE imageUrl caption =
      ⟨.error processingErrorMsg, true, true, k + 1, false⟩ ∧
    timeoutMsg ≠ processingErrorMsg := by
  refine ⟨?_, ?_, by decide⟩
  · have hpoll := pollStatus_all_progress net.statusResps hprog
    simp +decide [postToInstagram, hacc, huid, hok, hct, hcr, hpoll]
  · have hpoll := pollStatus_stop_at netE.statusResps k hkE hbef
      (by rw [herr]; decide)
    rw [herr] at hpoll
    simp +decide [postToInstagram, hacc, huid, hokE, hctE, hcrE, hpoll]

/-- C2 (witness): with the expired-but-present credential, an
all-IN_PROGRESS network times out after 30 polls, a first-poll-ERROR
network fails with the processing message, and the messages differ. -/
theorem c2_witness :
    postToInstagram (some expiredTokens) none none inProgressNet "u" "c" =
      ⟨.error timeoutMsg, true, true, maxAttempts, false⟩ ∧
    postToInstagram (some expiredTokens) none none errorNet "u" "c" =
      ⟨.error processingErrorMsg, true, true, 1, false⟩ ∧
    timeoutMsg ≠ processingErrorMsg :=
  c2_poll_timeout_vs_error (some expiredTokens) none none inProgressNet errorNet
    "u" "c" 0 (by decide) (by decide) rfl (by decide) rfl (fun _ => rfl)
    rfl (by decide) rfl (by decide) (fun i hi => absurd hi (Nat.not_lt_zero i)) rfl

/-- C5: when the credential resolves and the HEAD and create steps
succeed, the first received status response carrying neither a
`status_code` nor a `status` field (the (k+1)-th, all earlier ones
having reported IN_PROGRESS) ends the poll as FINISHED after exactly
k+1 polls, and the publish POST is then issued. -/
theorem c5_no_status_field_is_ready (tokens : Option Tokens)
    (envToken envUserId : Option String) (net : Network)
    (imageUrl caption : String) (k : Nat)
    (hacc : truthyS (getInstagramCreds tokens envToken envUserId).accessToken = true)
    (huid : truthyS (getInstagramCreds tokens envToken envUserId).userId = true)
    (hok : net.head.ok = true)
    (hct : startsWithImage (net.head.contentType.getD "") = true)
    (hcr : net.create.err = none)
    (hk : k < maxAttempts)
    (hbef : ∀ i, i < k → interpStatus (net.statusResps i) = "IN_PROGRESS")
    (h0 : (net.statusResps k).status_code = none)
    (h1 : (net.statusResps k).status = none) :
    pollStatus net.statusResps = ("FINISHED", k + 1) ∧
    (postToInstagram tokens envToken envUserId net imageUrl caption).statusCalls = k + 1 ∧
    (postToInstagram tokens envToken envUserId net imageUrl caption).publishCalled = true := by
  have hfin : interpStatus (net.statusResps k) = "FINISHED" := by
    simp [interpStatus, h0, h1, truthyS]
  have hpoll : pollStatus net.statusResps = ("FINISHED", k + 1) := by
    have := pollStatus_stop_at net.statusResps k hk hbef (by rw [hfin]; decide)
    rwa [hfin] at this
  refine ⟨hpoll, ?_, ?_⟩ <;>
    · simp +decide [postToInstagram, hacc, huid, hok, hct, hcr, hpoll]
      split <;> rfl

/-- C3: for a stored credential record carrying a (truthy) access token
and an expiry timestamp, startup triggers exactly one refresh attempt
iff the expiry is strictly in the future and strictly less than seven
days away; in every other case (seven or more days out, or already
past) no refresh call is made. -/
theorem c3_refresh_window (t : Tokens) (exp now : Int)
    (htok : truthyS t.accessToken = true) (hexp : t.expiresAt = some exp) :
    (loadTokensRefreshCount (some t) now = 1 ↔
      (now < exp ∧ exp - now < refreshWindowMs)) ∧
    (¬(now < exp ∧ exp - now < refreshWindowMs) →
      loadTokensRefreshCount (some t) now = 0) := by
  have hred : loadTokensRefreshCount (some t) now =
      if exp - now < refreshWindowMs ∧ 0 < exp - now then 1 else 0 := by
    simp [loadTokensRefreshCount, hexp, htok]
  have hiff : (exp - now < refreshWindowMs ∧ 0 < exp - now) ↔
      (now < exp ∧ exp - now < refreshWindowMs) := by omega
  rw [hred]
  by_cases hc : now < exp ∧ exp - now < refreshWindowMs
  · rw [if_pos (hiff.mpr hc)]
    exact ⟨⟨fun _ => hc, fun _ => rfl⟩, fun hn => absurd hc hn⟩
  · rw [if_neg (fun h => hc (hiff.mp h))]
    exact ⟨⟨fun h => absurd h (by omega), fun h => absurd h hc⟩, fun _ => rfl⟩

/-- C3 (witness): a token expiring 1000 ms from `now = 500` (inside the
window) yields exactly one refresh attempt. -/
theorem c3_witness :
    (loadTokensRefreshCount (some freshTokens) 500 = 1 ↔
      ((500 : Int) < 1500 ∧ (1500 : Int) - 500 < refreshWindowMs)) ∧
    (¬(((500 : Int) < 1500) ∧ (1500 : Int) - 500 < refreshWindowMs) →
      loadTokensRefreshCount (some freshTokens) 500 = 0) :=
  c3_refresh_window freshTokens 1500 500 (by decide) rfl

/-- C4: whenever the automatic token refresh fails — the upstream
response carries an error payload, or the HTTP call throws — the
in-memory credential record is left exactly as it was and nothing is
written to the credential file. -/
theorem c4_refresh_failure_preserves (st : Option Tokens)
    (fbAppId fbAppSecret : Option String) (resp : RefreshResp) (now : Int)
    (hfail : (∃ m, resp = .errorPayload m) ∨ (∃ m, resp = .throwErr m)) :
    (autoRefreshToken st fbAppId fbAppSecret resp now).tokens = st ∧
    (autoRefreshToken st fbAppId fbAppSecret resp now).fileWritten = none := by
  cases resp with
  | ok m =>
    exfalso
    rcases hfail with ⟨m', h⟩ | ⟨m', h⟩ <;> simp at h
  | errorPayload m =>
    cases st with
    | none => exact ⟨rfl, rfl⟩
    | some t => constructor <;> (simp only [autoRefreshToken]; split <;> rfl)
  | throwErr m =>
    cases st with
    | none => exact ⟨rfl, rfl⟩
    | some t => constructor <;> (simp only [autoRefreshToken]; split <;> rfl)

/-- C4 (witness): an error-payload refresh response leaves the stored
expired record in memory untouched and writes no file. -/
theorem c4_witness :
    (autoRefreshToken (some expiredTokens) (some "appid") (some "secret")
        (.errorPayload "cannot refresh") 0).tokens = some expiredTokens ∧
    (autoRefreshToken (some expiredTokens) (some "appid") (some "secret")
        (.errorPayload "cannot refresh") 0).fileWritten = none :=
  c4_refresh_failure_preserves (some expiredTokens) (some "appid") (some "secret")
    (.errorPayload "cannot refresh") 0 (Or.inl ⟨"cannot refresh", rfl⟩)

/-- C6: in the authorization-code callback, with two listed pages of
which only the second has a linked business account, the persisted
credential carries the second page's access token, linked account id and
username; in general the persisted credential is built from the first
page in listing order whose business-account lookup succeeds. -/
theorem c6_first_linked_page (p1 p2 : PageInfo) (igId : String) (now : Int)
    (h1 : p1.igBusinessAccount = none) (h2 : p2.igBusinessAccount = some igId) :
    callbackSavedTokens now [p1, p2] =
      some { accessToken := some p2.access_token, userId := some igId,
             username := p2.igUsername, pageId := some p2.id,
             pageName := some p2.name, expiresAt := some (now + longLivedMs) } ∧
    ∀ (ps : List PageInfo) (n : Int), callbackSavedTokens n ps =
      (ps.find? fun p => p.igBusinessAccount.isSome).map (pageTokens n) := by
  constructor
  · simp [callbackSavedTokens, h1, h2]
  · intro ps n
    induction ps with
    | nil => rfl
    | cons p rest ih =>
      cases hp : p.igBusinessAccount with
      | none =>
        rw [List.find?_cons_of_neg _ (by simp [hp])]
        simpa [callbackSavedTokens, hp] using ih
      | some igId2 =>
        rw [List.find?_cons_of_pos _ (by simp [hp])]
        simp [callbackSavedTokens, hp, pageTokens]

/-- C6 (witness): two concrete pages, only the second linked: the stored
credential is the second page's. -/
theorem c6_witness :
    callbackSavedTokens 0 [unlinkedPage, linkedPage] =
      some { accessToken := some "tok2", userId := some "ig2",
             username := some "user2", pageId := some "pg2",
             pageName := some "Page Two", expiresAt := some (0 + longLivedMs) } ∧
    ∀ (ps : List PageInfo) (n : Int), callbackSavedTokens n ps =
      (ps.find? fun p => p.igBusinessAccount.isSome).map (pageTokens n) :=
  c6_first_linked_page unlinkedPage linkedPage "ig2" 0 rfl rfl

/-- C5 (witness): a first status response with no status fields ends the
poll at one attempt and reaches the publish step. -/
theorem c5_witness :
    pollStatus noFieldNet.statusResps = ("FINISHED", 1) ∧
    (postToInstagram (some expiredTokens) none none noFieldNet "u" "c").statusCalls = 1 ∧
    (postToInstagram (some expiredTokens) none none noFieldNet "u" "c").publishCalled = true :=
  c5_no_status_field_is_ready (some expiredTokens) none none noFieldNet "u" "c" 0
    (by decide) (by decide) rfl (by decide) rfl (by decide)
    (fun i hi => absurd hi (Nat.not_lt_zero i)) rfl rfl

/-- C7 (counterexample): publishing against an id that matches no
gallery record still reports success: the publish route returns the 200
outcome with the media id, `markAsPosted` silently leaves the document
unchanged, and nothing signals "not found". -/
theorem c7_counterexample :
    postToInstagramRoute (some "http://pub") (some expiredTokens) none none
        demoNetOk { images := [] } 1 "a.jpg" "cap" "2024-01-01T00:00:00Z" =
      (.ok (some "mid1"), { images := [] }, false) ∧
    markAsPosted { images := [] } 1 "2024-01-01T00:00:00Z" =
      ({ images := [] }, false) := by
  constructor <;> rfl

/-- C7 (amended): for the favorite-toggle, caption-edit and delete
routes, an id matching no record yields the 404 not-found outcome (a
constructor distinct from `ok`, `badRequest` and `serverError`) with no
write; `markAsPosted`, by contrast, silently returns the document
unchanged with no write, so the publish route still reports success. -/
theorem c7_amended (g : GalleryData) (imageId : Int) (c : String) (fe : Bool)
    (nowIso : String) (hc : c ≠ "")
    (habsent : ∀ img ∈ g.images, (img.id == imageId) = false) :
    toggleFavoriteRoute (.ok g) imageId = (.notFound, none) ∧
    setCaptionRoute (.ok g) imageId (some c) = (.notFound, none) ∧
    deleteRoute (.ok g) imageId fe = (.notFound, none, false) ∧
    markAsPosted g imageId nowIso = (g, false) := by
  have hfind : g.images.find? (fun i => i.id == imageId) = none :=
    List.find?_eq_none.mpr (fun a ha => by simp [habsent a ha])
  have hidx : g.images.findIdx? (fun i => i.id == imageId) = none := by
    rw [List.findIdx?_eq_none_iff]
    intro a ha
    simp [habsent a ha]
  refine ⟨?_, ?_, ?_, ?_⟩
  · simp [toggleFavoriteRoute, hfind]
  · simp [setCaptionRoute, truthyS, hc, hfind]
  · simp [deleteRoute, hidx]
  · simp [markAsPosted, hfind]

/-- C7 (witness): against the empty gallery, id 1 gives not-found on the
three lookup routes and a silent no-op from `markAsPosted`. -/
theorem c7_witness :
    toggleFavoriteRoute (.ok { images := [] }) 1 = (.notFound, none) ∧
    setCaptionRoute (.ok { images := [] }) 1 (some "hello") = (.notFound, none) ∧
    deleteRoute (.ok { images := [] }) 1 false = (.notFound, none, false) ∧
    markAsPosted { images := [] } 1 "2024-01-01" = ({ images := [] }, false) :=
  c7_amended { images := [] } 1 "hello" false "2024-01-01" (by decide)
    (fun img h => absurd h (List.not_mem_nil img))

/-- C8: toggling the favorite flag of a present record twice returns
first the negated and then the original flag value, and the final
document written back is exactly the original document — every other
field and every other record unchanged. -/
theorem c8_toggle_twice (g : GalleryData) (imageId : Int) (img : GalleryImage)
    (h : g.images.find? (fun i => i.id == imageId) = some img) :
    ∃ g1 : GalleryData,
      toggleFavoriteRoute (.ok g) imageId = (.ok (!img.favorited), some g1) ∧
      toggleFavoriteRoute (.ok g1) imageId = (.ok img.favorited, some g) := by
  refine ⟨GalleryData.mk (updateFirst (fun i => i.id == imageId)
      (fun i => { i with favorited := !i.favorited }) g.images), ?_, ?_⟩
  · simp [toggleFavoriteRoute, h]
  · have h2 := find?_updateFirst (fun i => i.id == imageId)
      (fun i => { i with favorited := !i.favorited }) (fun a ha => ha)
      g.images img h
    simp only [toggleFavoriteRoute, h2]
    rw [updateFirst_updateFirst (fun i => i.id == imageId)
      (fun i => { i with favorited := !i.favorited }) (fun a ha => ha)
      (fun a _ => by simp) g.images]
    simp [Bool.not_not]

/-- C8 (witness): toggling record 1 of the one-record gallery twice
returns true then false and restores the document exactly. -/
theorem c8_witness :
    ∃ g1 : GalleryData,
      toggleFavoriteRoute (.ok sampleGallery) 1 = (.ok (!sampleImage.favorited), some g1) ∧
      toggleFavoriteRoute (.ok g1) 1 = (.ok sampleImage.favorited, some sampleGallery) :=
  c8_toggle_twice sampleGallery 1 sampleImage (by decide)

/-- C9: deleting a present record whose backing image file is absent
still removes the record, writes the updated document back, performs no
file removal, and reports success. -/
theorem c9_delete_missing_file (g : GalleryData) (imageId : Int) (idx : Nat)
    (h : g.images.findIdx? (fun i => i.id == imageId) = some idx) :
    deleteRoute (.ok g) imageId false =
      (.ok (), some { images := g.images.eraseIdx idx }, false) := by
  simp [deleteRoute, h]

/-- C9 (witness): deleting record 1 of the one-record gallery with the
backing file absent succeeds and writes back the emptied document. -/
theorem c9_witness :
    deleteRoute (.ok sampleGallery) 1 false =
      (.ok (), some { images := sampleGallery.images.eraseIdx 0 }, false) :=
  c9_delete_missing_file sampleGallery 1 0 (by decide)

/-- C10 (counterexample): a generate request carrying neither a color
nor a hijab folder is rejected with 400 and executes zero Generation
Driver runs, even with a requested count of 3 — so the run count is not
always the clamped requested count and can be zero. -/
theorem c10_counterexample :
    generateRoute none none (some 3) =
      (.badRequest "Select a hijab, choose Random, or provide a color", 0) := by
  rfl

/-- C10 (amended): for every generate request that passes validation
(a truthy color or hijab folder), the number of driver runs is the
requested count clamped to 1..10 — a missing or non-numeric count (and
a parsed 0, which is falsy) runs once — and is never zero nor more
than 10. -/
theorem c10_amended (color hijabFolder : Option String) (count : Option Int)
    (h : truthyS color = true ∨ truthyS hijabFolder = true) :
    (generateRoute color hijabFolder count).2 = (runCount count).toNat ∧
    1 ≤ (generateRoute color hijabFolder count).2 ∧
    (generateRoute color hijabFolder count).2 ≤ 10 ∧
    (count = none → (generateRoute color hijabFolder count).2 = 1) ∧
    (∀ v : Int, count = some v →
      (generateRoute color hijabFolder count).2 = (min (max v 1) 10).toNat) := by
  have hguard : (!(truthyS color) && !(truthyS hijabFolder)) = false := by
    rcases h with h | h <;> simp [h]
  have hroute : (generateRoute color hijabFolder count).2 = (runCount count).toNat := by
    simp [generateRoute, hguard]
  have hb : 1 ≤ runCount count ∧ runCount count ≤ 10 := by
    cases count with
    | none => exact ⟨by decide, by decide⟩
    | some v =>
      simp only [runCount, parseCountOr1]
      by_cases hv : v = 0
      · subst hv; decide
      · rw [if_neg hv]; constructor <;> omega
  refine ⟨hroute, ?_, ?_, ?_, ?_⟩
  · rw [hroute]; omega
  · rw [hroute]; omega
  · intro hcn; subst hcn; rw [hroute]; decide
  · intro v hcv
    subst hcv
    rw [hroute]
    simp only [runCount, parseCountOr1]
    by_cases hv : v = 0
    · subst hv; decide
    · simp [hv]

/-- C10 (witness): with a color present and no count, the generator
runs exactly once. -/
theorem c10_witness :
    (generateRoute (some "red") none none).2 = (runCount none).toNat ∧
    1 ≤ (generateRoute (some "red") none none).2 ∧
    (generateRoute (some "red") none none).2 ≤ 10 ∧
    ((none : Option Int) = none → (generateRoute (some "red") none none).2 = 1) ∧
    (∀ v : Int, (none : Option Int) = some v →
      (generateRoute (some "red") none none).2 = (min (max v 1) 10).toNat) :=
  c10_amended (some "red") none none (Or.inl (by decide))

end Dashboard
